import Mathlib

/-!
Verification development for the `OpenAIEmbeddings` client of
`src/vector-db/src/OpenAIEmbeddings.ts` (repository `highfeast/blueband`).

The TypeScript class is shallowly embedded as pure Lean functions:

* the heterogeneous options object becomes the `Options` structure whose
  fields are `Option`-typed (a `none` field models an absent / `undefined`
  JavaScript property);
* the constructor becomes `construct : Options → Except String OpenAIEmbeddings`
  (`Except.error` models a thrown construction error);
* the axios transport becomes an explicit function
  `Transport := Nat → HttpRequest → AxiosResponse` giving the raw wire
  response of each physical attempt; the axios `validateStatus` rejection is
  modelled by the `HttpOutcome.thrown` constructor;
* the in-place mutation of the shared `requestConfig.headers` object done by
  `post` is modelled by explicit state passing: `post` and `createEmbeddings`
  return the updated client state next to their result.

JavaScript strings are modelled by `String`, with the handful of string
operations used by the source (`trim`, `endsWith`, `substring`, `toLowerCase`,
`startsWith`) re-implemented structurally over `String.data` so that every
definition evaluates inside the kernel.
-/

namespace Blueband

/-- Model of the `ClientType` enum of the source. -/
inductive ClientType where
  | OpenAI
  | AzureOpenAI
  | OSS
deriving DecidableEq, Repr

/-- A JavaScript object used as a header map: an association list from header
names to values, in insertion order. -/
abbrev HeadersObj := List (String × String)

/-- Model of the fragment of `AxiosRequestConfig` the source touches: the
`headers` property (possibly absent) plus a representative unrelated property
(`timeout`) used to state frame conditions. -/
structure RequestConfig where
  headers : Option HeadersObj := none
  timeout : Option Nat := none
deriving DecidableEq, Repr

/-- The heterogeneous constructor options object.  The source accepts the
union `OSSEmbeddingsOptions | OpenAIEmbeddingsOptions |
AzureOpenAIEmbeddingsOptions` and duck-types it, so the model carries every
field of every variant, each one optional (`none` = the property is absent or
`undefined`). -/
structure Options where
  apiKey : Option String := none
  model : Option String := none
  organization : Option String := none
  endpoint : Option String := none
  azureApiKey : Option String := none
  azureEndpoint : Option String := none
  azureDeployment : Option String := none
  azureApiVersion : Option String := none
  ossModel : Option String := none
  ossEndpoint : Option String := none
  logRequests : Bool := false
  retryPolicy : Option (List Nat) := none
  requestConfig : Option RequestConfig := none
deriving DecidableEq, Repr

/-- The constructed client: the merged `this.options` plus `this._clientType`. -/
structure OpenAIEmbeddings where
  options : Options
  clientType : ClientType
deriving DecidableEq, Repr

/-- JavaScript truthiness of an optional string: `undefined` and the empty
string are falsy, every other string is truthy. -/
def truthy : Option String → Bool
  | some s => !(s == "")
  | none => false

/-- JavaScript string interpolation of a possibly-`undefined` value: an
absent value prints as the string `undefined`. -/
def jsString : Option String → String
  | some s => s
  | none => "undefined"

/-- Model of JavaScript `String.prototype.trim`: drop whitespace from both
ends (structural re-implementation of `String.trim`). -/
def strTrim (s : String) : String :=
  String.mk (((s.data.dropWhile Char.isWhitespace).reverse.dropWhile Char.isWhitespace).reverse)

/-- Model of `endsWith("/")`: does the last character equal the given one? -/
def strEndsWithChar (s : String) (c : Char) : Bool :=
  s.data.getLast? == some c

/-- Model of `substring(0, length - 1)`: drop the final character. -/
def strDropLast (s : String) : String :=
  String.mk s.data.dropLast

/-- Model of `toLowerCase`, mapping `Char.toLower` over the characters. -/
def strToLower (s : String) : String :=
  String.mk (s.data.map Char.toLower)

/-- Model of `startsWith`: is the first string a prefix of the second? -/
def strStartsWith (s pre : String) : Bool :=
  List.isPrefixOf pre.data s.data

/-- Lines 168-171 of the source: `trim()` the endpoint, then strip one
trailing `/`. -/
def normalizeEndpoint (e : String) : String :=
  let trimmed := strTrim e
  if strEndsWithChar trimmed '/' then strDropLast trimmed else trimmed

/-- The construction-time error message of lines 174-176 of the source. -/
def invalidEndpointMessage (endpoint : String) : String :=
  "Client created with an invalid endpoint of \x27" ++ endpoint ++
    "\x27. The endpoint must be a valid HTTPS url."

/-- The variant-selection precedence of the constructor (lines 157, 180, 188
of the source): truthy `azureApiKey` selects Azure, otherwise truthy
`ossModel` selects OSS, otherwise OpenAI. -/
def selectClientType (options : Options) : ClientType :=
  if truthy options.azureApiKey then ClientType.AzureOpenAI
  else if truthy options.ossModel then ClientType.OSS
  else ClientType.OpenAI

/-- Model of the constructor (lines 150-202 of the source).  `Object.assign`
of the defaults under the caller options is modelled with `Option.getD`; a
thrown error is `Except.error`.  In the Azure branch the endpoint is
normalized and must start with `https://` case-insensitively; reading `trim`
of an absent `azureEndpoint` would throw a `TypeError` in JavaScript, which
is also modelled as `Except.error`. -/
def construct (options : Options) : Except String OpenAIEmbeddings :=
  if truthy options.azureApiKey then
    let merged := { options with
      retryPolicy := some (options.retryPolicy.getD [2000, 5000]),
      azureApiVersion := some (options.azureApiVersion.getD "2023-05-15") }
    match merged.azureEndpoint with
    | none => Except.error "TypeError: cannot read properties of undefined, reading trim"
    | some e =>
      let endpoint := normalizeEndpoint e
      if strStartsWith (strToLower endpoint) "https://" then
        Except.ok
          { options := { merged with azureEndpoint := some endpoint },
            clientType := ClientType.AzureOpenAI }
      else
        Except.error (invalidEndpointMessage endpoint)
  else if truthy options.ossModel then
    Except.ok
      { options := { options with retryPolicy := some (options.retryPolicy.getD [2000, 5000]) },
        clientType := ClientType.OSS }
  else
    Except.ok
      { options := { options with retryPolicy := some (options.retryPolicy.getD [2000, 5000]) },
        clientType := ClientType.OpenAI }

/-- The client type produced by a successful construction, `none` when the
constructor throws. -/
def constructedClientType (options : Options) : Option ClientType :=
  match construct options with
  | Except.ok client => some client.clientType
  | Except.error _ => none

instance {e a : Type} [DecidableEq e] [DecidableEq a] : DecidableEq (Except e a) := fun x y =>
  match x, y with
  | Except.ok v, Except.ok w =>
    match decEq v w with
    | isTrue h => isTrue (congrArg Except.ok h)
    | isFalse h => isFalse (fun hh => h (Except.ok.inj hh))
  | Except.error v, Except.error w =>
    match decEq v w with
    | isTrue h => isTrue (congrArg Except.error h)
    | isFalse h => isFalse (fun hh => h (Except.error.inj hh))
  | Except.ok _, Except.error _ => isFalse (fun hh => Except.noConfusion hh)
  | Except.error _, Except.ok _ => isFalse (fun hh => Except.noConfusion hh)

/-- One item of the response body list `response.data.data`: an index and an
embedding vector.  Vector entries are modelled as integers, since the client
never computes with them. -/
structure RawItem where
  index : Nat
  embedding : List Int
deriving DecidableEq, Repr

/-- The raw HTTP response of one physical attempt, as axios would surface it:
status, status text and the parsed body list `data.data`. -/
structure AxiosResponse where
  status : Nat
  statusText : String
  data : List RawItem
deriving DecidableEq, Repr

/-- The request body built by `createEmbeddingRequest`: the caller inputs plus
the `model` field that line 259 of the source copies from `options.model`
(`none` models the JavaScript value `undefined`). -/
structure EmbeddingRequestBody where
  input : List String
  model : Option String
deriving DecidableEq, Repr

/-- One physical HTTP request: target URL, body and the headers at send time. -/
structure HttpRequest where
  url : String
  body : EmbeddingRequestBody
  headers : HeadersObj
deriving DecidableEq, Repr

/-- A deterministic transport: the raw wire response as a function of the
physical attempt number (the `retryCount` of the source) and the request. -/
abbrev Transport := Nat → HttpRequest → AxiosResponse

/-- Outcome of the `post` method: either an error thrown by axios because
`validateStatus` rejected the status, or the final response together with
the list of delays waited (in order) and the number of physical attempts. -/
inductive HttpOutcome where
  | thrown (message : String)
  | final (response : AxiosResponse) (delays : List Nat) (attempts : Nat)
deriving DecidableEq, Repr

/-- The tagged `EmbeddingsResponse` value returned by `createEmbeddings`. -/
inductive EmbeddingsResponse where
  | success (output : List (List Int))
  | rate_limited (message : String)
  | error (message : String)
deriving DecidableEq, Repr

/-- Result of one `createEmbeddings` call: a returned `EmbeddingsResponse`, or
an exception propagated from the transport. -/
inductive CallResult where
  | thrown (message : String)
  | returned (response : EmbeddingsResponse)
deriving DecidableEq, Repr

/-- Header-map lookup, modelling `obj[key]` on a JavaScript object. -/
def hget (h : HeadersObj) (k : String) : Option String :=
  match h with
  | [] => none
  | p :: rest => if p.1 == k then some p.2 else hget rest k

/-- Header-map update, modelling `obj[key] = v`: overwrite the value in place
when the key exists, otherwise append the new property. -/
def hset (h : HeadersObj) (k v : String) : HeadersObj :=
  match h with
  | [] => [(k, v)]
  | p :: rest => if p.1 == k then (k, v) :: rest else p :: hset rest k v

/-- The headers object reachable from `this.options.requestConfig.headers`,
or a fresh empty object when absent (lines 272-280 of the source: the shallow
`Object.assign` copy shares the caller headers object when there is one). -/
def effHeaders (client : OpenAIEmbeddings) : HeadersObj :=
  match client.options.requestConfig with
  | some rc => rc.headers.getD []
  | none => []

/-- Lines 281-286 of the source: fill in `Content-Type` and `User-Agent` when
the present value is falsy (absent or empty). -/
def setDefaultHeaders (headers : HeadersObj) : HeadersObj :=
  let h1 := if truthy (hget headers "Content-Type") then headers
    else hset headers "Content-Type" "application/json"
  if truthy (hget h1 "User-Agent") then h1
  else hset h1 "User-Agent" "AlphaWave"

/-- Lines 288-292 of the source: unconditionally set `Authorization` to the
bearer credential built from `options.apiKey`, and set `OpenAI-Organization`
when `options.organization` is truthy (the two parameters are those two
option fields).  Note the source never branches on the client type here: the
Azure `api-key` header is never produced. -/
def setAuthHeaders (apiKey organization : Option String) (headers : HeadersObj) : HeadersObj :=
  let h3 := hset headers "Authorization" ("Bearer " ++ jsString apiKey)
  if truthy organization then
    hset h3 "OpenAI-Organization" (jsString organization)
  else h3

/-- The whole header initialization of one `post` attempt (lines 277-292), as
a function of the two option fields it reads. -/
def applyHeadersKV (apiKey organization : Option String) (headers : HeadersObj) : HeadersObj :=
  setAuthHeaders apiKey organization (setDefaultHeaders headers)

/-- The whole header initialization of one `post` attempt (lines 277-292). -/
def applyHeaders (client : OpenAIEmbeddings) (headers : HeadersObj) : HeadersObj :=
  applyHeadersKV client.options.apiKey client.options.organization headers

/-- The client state after the header initialization of one `post` attempt:
when the caller supplied a `requestConfig` with a `headers` object, that
shared object has been mutated in place to `applyHeaders`; otherwise the
headers lived only on the per-call shallow copy and the client is unchanged. -/
def stepState (client : OpenAIEmbeddings) : OpenAIEmbeddings :=
  match client.options.requestConfig with
  | none => client
  | some rc =>
    match rc.headers with
    | none => client
    | some h =>
      { client with options :=
          { client.options with requestConfig := some { rc with headers := some (applyHeaders client h) } } }

/-- Line 200 of the source: axios resolves the response only for statuses
below 400 or equal to 429; every other status makes the `post` await throw. -/
def validateStatus (status : Nat) : Bool :=
  decide (status < 400) || decide (status = 429)

/-- The recursion of the `post` method (lines 266-309 of the source).
`remaining` is the un-consumed suffix `retryPolicy.drop retryCount` of the
retry schedule, carried structurally so that the definition computes: the
source guard `retryCount < retryPolicy.length` is `remaining ≠ []`, and the
delay `retryPolicy[retryCount]` is the head of `remaining` (the header
mutation of `stepState` never changes `retryPolicy`).  Each attempt first
initializes headers (mutating the shared headers object), then sends the
request; a status rejected by `validateStatus` throws, a 429 status with
schedule left waits the next delay and recurses, and any other resolved
status is final. -/
def postAux (transport : Transport) (client : OpenAIEmbeddings) (url : String)
    (body : EmbeddingRequestBody) (retryCount : Nat) : List Nat → HttpOutcome × OpenAIEmbeddings
  | [] =>
    let requestHeaders := applyHeaders client (effHeaders client)
    let client2 := stepState client
    let response := transport retryCount { url := url, body := body, headers := requestHeaders }
    if validateStatus response.status = false then
      (HttpOutcome.thrown ("Request failed with status code " ++ toString response.status), client2)
    else (HttpOutcome.final response [] 1, client2)
  | delay :: rest =>
    let requestHeaders := applyHeaders client (effHeaders client)
    let client2 := stepState client
    let response := transport retryCount { url := url, body := body, headers := requestHeaders }
    if validateStatus response.status = false then
      (HttpOutcome.thrown ("Request failed with status code " ++ toString response.status), client2)
    else if response.status = 429 then
      match postAux transport client2 url body (retryCount + 1) rest with
      | (HttpOutcome.thrown m, client3) => (HttpOutcome.thrown m, client3)
      | (HttpOutcome.final r ds a, client3) => (HttpOutcome.final r (delay :: ds) (a + 1), client3)
    else (HttpOutcome.final response [] 1, client2)

/-- The `post` method itself: run the attempt recursion with the un-consumed
retry schedule (`getD []` covers the `Array.isArray` guard of line 300: a
missing schedule retries never). -/
def post (transport : Transport) (client : OpenAIEmbeddings) (url : String)
    (body : EmbeddingRequestBody) (retryCount : Nat) : HttpOutcome × OpenAIEmbeddings :=
  postAux transport client url body retryCount ((client.options.retryPolicy.getD []).drop retryCount)

/-- Line 258 of the source: the request URL, for every client variant, is
`options.endpoint ?? "https://api.openai.com"` plus `/v1/embeddings`. -/
def createEmbeddingRequestUrl (client : OpenAIEmbeddings) : String :=
  (client.options.endpoint.getD "https://api.openai.com") ++ "/v1/embeddings"

/-- Line 259 of the source: the body carries the inputs and, for every client
variant, the `model` field copied from `options.model`. -/
def createEmbeddingRequestBody (client : OpenAIEmbeddings) (inputs : List String) : EmbeddingRequestBody :=
  { input := inputs, model := client.options.model }

/-- The `createEmbeddingRequest` method (lines 254-261 of the source). -/
def createEmbeddingRequest (transport : Transport) (client : OpenAIEmbeddings)
    (inputs : List String) : HttpOutcome × OpenAIEmbeddings :=
  post transport client (createEmbeddingRequestUrl client) (createEmbeddingRequestBody client inputs) 0

/-- The comparison key of line 235 of the source: ascending item index. -/
def idxLe (a b : RawItem) : Prop := a.index ≤ b.index

instance : DecidableRel idxLe := fun a b => Nat.decLe a.index b.index

instance : IsTotal RawItem idxLe := ⟨fun a b => Nat.le_total a.index b.index⟩

instance : IsTrans RawItem idxLe := ⟨fun _ _ _ h1 h2 => Nat.le_trans h1 h2⟩

/-- Line 235 of the source: `sort((a, b) => a.index - b.index)`, a stable
ascending sort by item index. -/
def sortByIndex (l : List RawItem) : List RawItem :=
  List.insertionSort idxLe l

/-- The `createEmbeddings` method (lines 210-249 of the source): build the
request, run `post`, then classify the final response.  The source accepts
`string | string[]`; the model uses the list shape, which the method never
inspects (it is passed through verbatim as the body input, and the
`logRequests` console logging and timing have no effect on the result).
Classification: a status below 300
yields `success` with the embeddings sorted by index, 429 yields
`rate_limited`, and any other resolved status yields `error` with a message
embedding status code and status text.  An exception from the transport
propagates; the mutated client state is returned next to the result. -/
def createEmbeddings (client : OpenAIEmbeddings) (transport : Transport)
    (inputs : List String) : CallResult × OpenAIEmbeddings :=
  match createEmbeddingRequest transport client inputs with
  | (HttpOutcome.thrown m, client2) => (CallResult.thrown m, client2)
  | (HttpOutcome.final response _ _, client2) =>
    if response.status < 300 then
      (CallResult.returned (EmbeddingsResponse.success ((sortByIndex response.data).map RawItem.embedding)), client2)
    else if response.status = 429 then
      (CallResult.returned (EmbeddingsResponse.rate_limited "The embeddings API returned a rate limit error."), client2)
    else
      (CallResult.returned (EmbeddingsResponse.error
        ("The embeddings API returned an error status of " ++ toString response.status ++ ": " ++ response.statusText)), client2)

/-! ### Concrete fixtures used by witnesses and counterexamples -/

def presentButEmptyKeyOptions : Options :=
  { azureApiKey := some ""
    azureEndpoint := some "https://x"
    azureDeployment := some "d" }

def sampleClient : OpenAIEmbeddings :=
  { options :=
      { apiKey := some "sk-test"
        model := some "text-embedding-ada-002"
        retryPolicy := some [2000, 5000] }
    clientType := ClientType.OpenAI }

def allRate429 : Transport := fun _ _ =>
  { status := 429, statusText := "Too Many Requests", data := [] }

def reorderedSuccess : Transport := fun _ _ =>
  { status := 200, statusText := "OK",
    data := [{ index := 1, embedding := [0, 1] }, { index := 0, embedding := [1, 0] }] }

def singleServerError : Transport := fun _ _ =>
  { status := 500, statusText := "Internal Server Error", data := [] }

def singleStatus399 : Transport := fun _ _ =>
  { status := 399, statusText := "Out Of Band", data := [] }

def truncatedSuccess : Transport := fun _ _ =>
  { status := 200, statusText := "OK", data := [{ index := 0, embedding := [1] }] }

def azureSlashOptions : Options :=
  { azureApiKey := some "k"
    azureEndpoint := some " https://x/ "
    azureDeployment := some "d" }

def azureInsecureOptions : Options :=
  { azureApiKey := some "k"
    azureEndpoint := some "http://x"
    azureDeployment := some "d" }

def azureNormalizedClient : OpenAIEmbeddings :=
  { options :=
      { azureApiKey := some "k"
        azureEndpoint := some "https://x"
        azureDeployment := some "d"
        azureApiVersion := some "2023-05-15"
        retryPolicy := some [2000, 5000] }
    clientType := ClientType.AzureOpenAI }

def gatewayOptions : Options :=
  { azureApiKey := some "azure-key"
    azureEndpoint := some "https://gw.example"
    azureDeployment := some "model-d" }

def okEmpty : Transport := fun _ _ => { status := 200, statusText := "OK", data := [] }

def sharedHeadersClient : OpenAIEmbeddings :=
  { options :=
      { apiKey := some "sk-test"
        model := some "text-embedding-ada-002"
        retryPolicy := some [2000, 5000]
        requestConfig := some { headers := some [("X-Custom", "v")], timeout := some 7 } }
    clientType := ClientType.OpenAI }

/-! ### Helper lemmas about the header map -/

theorem hget_hset_self (h : HeadersObj) (k v : String) : hget (hset h k v) k = some v := by
  induction h with
  | nil => simp [hget, hset]
  | cons p rest ih =>
    by_cases hp : p.1 = k
    · simp [hget, hset, hp]
    · simp [hget, hset, hp, ih]

theorem hget_hset_ne (h : HeadersObj) (k k2 v : String) (hne : k2 ≠ k) :
    hget (hset h k2 v) k = hget h k := by
  induction h with
  | nil => simp [hget, hset, hne]
  | cons p rest ih =>
    by_cases hp : p.1 = k2
    · simp [hget, hset, hp, hne, ih]
    · simp [hget, hset, hp, hne, ih]

theorem hset_hget_id (h : HeadersObj) (k v : String) (hh : hget h k = some v) : hset h k v = h := by
  induction h with
  | nil => simp [hget] at hh
  | cons p rest ih =>
    by_cases hp : p.1 = k
    · simp [hget, hp] at hh
      simp [hset, hp, Prod.ext_iff, hh]
    · simp [hget, hp] at hh
      simp [hset, hp]
      exact ih hh

/-! ### Idempotence of the per-attempt header initialization -/

theorem ct_setDefaultHeaders (h : HeadersObj) :
    truthy (hget (setDefaultHeaders h) "Content-Type") = true := by
  unfold setDefaultHeaders
  by_cases hct : truthy (hget h "Content-Type")
  · simp only [hct, if_true]
    by_cases hua : truthy (hget h "User-Agent")
    · simp [hua, hct]
    · simp only [hua, if_false, Bool.false_eq_true]
      rw [hget_hset_ne _ _ _ _ (by decide)]
      exact hct
  · simp only [hct, if_false, Bool.false_eq_true]
    by_cases hua : truthy (hget (hset h "Content-Type" "application/json") "User-Agent")
    · simp only [hua, if_true]
      rw [hget_hset_self]
      decide
    · simp only [hua, if_false, Bool.false_eq_true]
      rw [hget_hset_ne _ _ _ _ (by decide), hget_hset_self]
      decide

theorem ua_setDefaultHeaders (h : HeadersObj) :
    truthy (hget (setDefaultHeaders h) "User-Agent") = true := by
  unfold setDefaultHeaders
  by_cases hua : truthy (hget (if truthy (hget h "Content-Type") then h
      else hset h "Content-Type" "application/json") "User-Agent")
  · simp only [hua, if_true]
  · simp only [hua, if_false, Bool.false_eq_true]
    rw [hget_hset_self]
    decide

theorem setDefaultHeaders_id (h : HeadersObj) (hct : truthy (hget h "Content-Type") = true)
    (hua : truthy (hget h "User-Agent") = true) : setDefaultHeaders h = h := by
  simp [setDefaultHeaders, hct, hua]

theorem auth_setAuthHeaders (k o : Option String) (h : HeadersObj) :
    hget (setAuthHeaders k o h) "Authorization" = some ("Bearer " ++ jsString k) := by
  unfold setAuthHeaders
  by_cases horg : truthy o
  · simp only [horg, if_true]
    rw [hget_hset_ne _ _ _ _ (by decide)]
    exact hget_hset_self _ _ _
  · simp only [horg, if_false, Bool.false_eq_true]
    exact hget_hset_self _ _ _

theorem org_setAuthHeaders (k o : Option String) (h : HeadersObj)
    (horg : truthy o = true) :
    hget (setAuthHeaders k o h) "OpenAI-Organization" = some (jsString o) := by
  simp only [setAuthHeaders, horg, if_true]
  exact hget_hset_self _ _ _

theorem setAuthHeaders_ct (k o : Option String) (h : HeadersObj) :
    hget (setAuthHeaders k o h) "Content-Type" = hget h "Content-Type" := by
  unfold setAuthHeaders
  by_cases horg : truthy o
  · simp only [horg, if_true]
    rw [hget_hset_ne _ _ _ _ (by decide), hget_hset_ne _ _ _ _ (by decide)]
  · simp only [horg, if_false, Bool.false_eq_true]
    rw [hget_hset_ne _ _ _ _ (by decide)]

theorem setAuthHeaders_ua (k o : Option String) (h : HeadersObj) :
    hget (setAuthHeaders k o h) "User-Agent" = hget h "User-Agent" := by
  unfold setAuthHeaders
  by_cases horg : truthy o
  · simp only [horg, if_true]
    rw [hget_hset_ne _ _ _ _ (by decide), hget_hset_ne _ _ _ _ (by decide)]
  · simp only [horg, if_false, Bool.false_eq_true]
    rw [hget_hset_ne _ _ _ _ (by decide)]

theorem setAuthHeaders_id (k o : Option String) (h : HeadersObj)
    (hauth : hget h "Authorization" = some ("Bearer " ++ jsString k))
    (horg : truthy o = true → hget h "OpenAI-Organization" = some (jsString o)) :
    setAuthHeaders k o h = h := by
  unfold setAuthHeaders
  by_cases ho : truthy o
  · simp only [ho, if_true]
    rw [hset_hget_id _ _ _ hauth, hset_hget_id _ _ _ (horg ho)]
  · simp only [ho, if_false, Bool.false_eq_true]
    exact hset_hget_id _ _ _ hauth

theorem applyHeadersKV_idem (k o : Option String) (h : HeadersObj) :
    applyHeadersKV k o (applyHeadersKV k o h) = applyHeadersKV k o h := by
  unfold applyHeadersKV
  rw [setDefaultHeaders_id]
  · apply setAuthHeaders_id
    · exact auth_setAuthHeaders _ _ _
    · intro ho
      exact org_setAuthHeaders _ _ _ ho
  · rw [setAuthHeaders_ct]
    exact ct_setDefaultHeaders _
  · rw [setAuthHeaders_ua]
    exact ua_setDefaultHeaders _

/-! ### The state step of one attempt: preservation and idempotence -/

theorem stepState_clientType (c : OpenAIEmbeddings) : (stepState c).clientType = c.clientType := by
  unfold stepState
  cases c.options.requestConfig with
  | none => rfl
  | some rc =>
    dsimp only
    cases rc.headers with
    | none => rfl
    | some h => rfl

theorem stepState_apiKey (c : OpenAIEmbeddings) : (stepState c).options.apiKey = c.options.apiKey := by
  unfold stepState
  cases c.options.requestConfig with
  | none => rfl
  | some rc =>
    dsimp only
    cases rc.headers with
    | none => rfl
    | some h => rfl

theorem stepState_organization (c : OpenAIEmbeddings) :
    (stepState c).options.organization = c.options.organization := by
  unfold stepState
  cases c.options.requestConfig with
  | none => rfl
  | some rc =>
    dsimp only
    cases rc.headers with
    | none => rfl
    | some h => rfl

theorem stepState_model (c : OpenAIEmbeddings) : (stepState c).options.model = c.options.model := by
  unfold stepState
  cases c.options.requestConfig with
  | none => rfl
  | some rc =>
    dsimp only
    cases rc.headers with
    | none => rfl
    | some h => rfl

theorem stepState_endpoint (c : OpenAIEmbeddings) :
    (stepState c).options.endpoint = c.options.endpoint := by
  unfold stepState
  cases c.options.requestConfig with
  | none => rfl
  | some rc =>
    dsimp only
    cases rc.headers with
    | none => rfl
    | some h => rfl

theorem stepState_retryPolicy (c : OpenAIEmbeddings) :
    (stepState c).options.retryPolicy = c.options.retryPolicy := by
  unfold stepState
  cases c.options.requestConfig with
  | none => rfl
  | some rc =>
    dsimp only
    cases rc.headers with
    | none => rfl
    | some h => rfl

theorem stepState_idem (c : OpenAIEmbeddings) : stepState (stepState c) = stepState c := by
  obtain ⟨opts, ct⟩ := c
  obtain ⟨k, m, org, ep, aak, aep, adep, aver, om, oe, lr, rp, rcfg⟩ := opts
  cases rcfg with
  | none => rfl
  | some rc =>
    obtain ⟨hs, tmo⟩ := rc
    cases hs with
    | none => rfl
    | some h =>
      dsimp only [stepState, applyHeaders]
      rw [applyHeadersKV_idem]

theorem applyHeaders_effHeaders_stepState (c : OpenAIEmbeddings) :
    applyHeaders (stepState c) (effHeaders (stepState c)) = applyHeaders c (effHeaders c) := by
  obtain ⟨opts, ct⟩ := c
  obtain ⟨k, m, org, ep, aak, aep, adep, aver, om, oe, lr, rp, rcfg⟩ := opts
  cases rcfg with
  | none => rfl
  | some rc =>
    obtain ⟨hs, tmo⟩ := rc
    cases hs with
    | none => rfl
    | some h =>
      dsimp only [stepState, effHeaders, applyHeaders, Option.getD_some]
      rw [applyHeadersKV_idem]

/-! ### Behaviour of the attempt recursion -/

theorem postAux_stepState (tr : Transport) (u : String) (b : EmbeddingRequestBody)
    (remaining : List Nat) (c : OpenAIEmbeddings) (n : Nat) :
    postAux tr (stepState c) u b n remaining = postAux tr c u b n remaining := by
  cases remaining with
  | nil =>
    unfold postAux
    rw [applyHeaders_effHeaders_stepState, stepState_idem]
  | cons d rest =>
    unfold postAux
    rw [applyHeaders_effHeaders_stepState, stepState_idem]

theorem postAux_snd (tr : Transport) (u : String) (b : EmbeddingRequestBody) :
    ∀ (remaining : List Nat) (c : OpenAIEmbeddings) (n : Nat),
      (postAux tr c u b n remaining).2 = stepState c := by
  intro remaining
  induction remaining with
  | nil =>
    intro c n
    unfold postAux
    dsimp only
    split
    · rfl
    · rfl
  | cons d rest ih =>
    intro c n
    unfold postAux
    dsimp only
    split
    · rfl
    · split
      · rcases hrec : postAux tr (stepState c) u b (n + 1) rest with ⟨o, c3⟩
        have h3 : c3 = stepState (stepState c) := by
          have hh := ih (stepState c) (n + 1)
          rw [hrec] at hh
          exact hh
        cases o with
        | thrown m => simp [hrec, h3, stepState_idem]
        | final r ds a => simp [hrec, h3, stepState_idem]
      · rfl

theorem postAux_no_retry (tr : Transport) (u : String) (b : EmbeddingRequestBody)
    (remaining : List Nat) (c : OpenAIEmbeddings) (n : Nat) (r : AxiosResponse)
    (htr : ∀ m req, tr m req = r) (hv : validateStatus r.status = true)
    (h429 : ¬ r.status = 429) :
    postAux tr c u b n remaining = (HttpOutcome.final r [] 1, stepState c) := by
  cases remaining with
  | nil =>
    unfold postAux
    dsimp only
    rw [htr]
    simp [hv]
  | cons d rest =>
    unfold postAux
    dsimp only
    rw [htr]
    simp [hv, h429]

theorem postAux_429 (tr : Transport) (u : String) (b : EmbeddingRequestBody)
    (h429 : ∀ m req, (tr m req).status = 429) :
    ∀ (remaining : List Nat) (c : OpenAIEmbeddings) (n : Nat),
      ∃ r c2, postAux tr c u b n remaining =
          (HttpOutcome.final r remaining (remaining.length + 1), c2) ∧ r.status = 429 := by
  intro remaining
  induction remaining with
  | nil =>
    intro c n
    refine ⟨tr n { url := u, body := b, headers := applyHeaders c (effHeaders c) },
      stepState c, ?_, h429 _ _⟩
    unfold postAux
    dsimp only
    have hv : validateStatus 429 = true := by decide
    simp [h429, hv]
  | cons d rest ih =>
    intro c n
    obtain ⟨r, c2, hrec, hr⟩ := ih (stepState c) (n + 1)
    refine ⟨r, c2, ?_, hr⟩
    unfold postAux
    dsimp only
    have hv : validateStatus 429 = true := by decide
    simp [h429, hv, hrec]

/-- Claim C1 counterexample: an options object whose gateway credential field
`azureApiKey` is present (with the empty string as value) is resolved by the
constructor to the `HostedProvider` (OpenAI) variant, not to the
`GatewayProvider` (Azure) variant the claim requires, because the source
tests truthiness rather than presence. -/
theorem c1_counterexample :
    presentButEmptyKeyOptions.azureApiKey = some "" ∧
    selectClientType presentButEmptyKeyOptions = ClientType.OpenAI ∧
    constructedClientType presentButEmptyKeyOptions = some ClientType.OpenAI ∧
    ClientType.OpenAI ≠ ClientType.AzureOpenAI := by decide

/-- Claim C1 (amended): the constructor selects exactly one variant by
truthiness precedence, first match wins: a present and non-empty
`azureApiKey` selects `GatewayProvider` (Azure); otherwise a present and
non-empty `ossModel` selects `SelfHosted` (OSS); otherwise the client is the
`HostedProvider` (OpenAI) variant.  The client type of every successfully
constructed client follows this precedence. -/
theorem c1_variant_precedence (opts : Options) :
    (truthy opts.azureApiKey = true → selectClientType opts = ClientType.AzureOpenAI) ∧
    (truthy opts.azureApiKey = false → truthy opts.ossModel = true →
      selectClientType opts = ClientType.OSS) ∧
    (truthy opts.azureApiKey = false → truthy opts.ossModel = false →
      selectClientType opts = ClientType.OpenAI) ∧
    (∀ client, construct opts = Except.ok client → client.clientType = selectClientType opts) := by
  refine ⟨?_, ?_, ?_, ?_⟩
  · intro h
    simp [selectClientType, h]
  · intro h1 h2
    simp [selectClientType, h1, h2]
  · intro h1 h2
    simp [selectClientType, h1, h2]
  · intro client hok
    by_cases h1 : truthy opts.azureApiKey
    · simp only [construct, h1, if_true] at hok
      cases he : opts.azureEndpoint with
      | none => simp [he] at hok
      | some e =>
        simp only [he] at hok
        by_cases hs : strStartsWith (strToLower (normalizeEndpoint e)) "https://"
        · simp only [hs, if_true] at hok
          cases hok
          simp [selectClientType, h1]
        · simp [hs] at hok
    · by_cases h2 : truthy opts.ossModel
      · simp only [construct, h1, h2, if_true, if_false, Bool.false_eq_true] at hok
        cases hok
        simp [selectClientType, h1, h2]
      · simp only [construct, h1, h2, if_true, if_false, Bool.false_eq_true] at hok
        cases hok
        simp [selectClientType, h1, h2]

/-- Claim C1 amended witness: the precedence evaluated on three concrete
options objects, one per variant. -/
theorem c1_variant_precedence_witness :
    selectClientType { azureApiKey := some "k", ossModel := some "m" } = ClientType.AzureOpenAI ∧
    selectClientType { ossModel := some "m", ossEndpoint := some "http://e" } = ClientType.OSS ∧
    selectClientType { apiKey := some "a", model := some "m" } = ClientType.OpenAI :=
  ⟨(c1_variant_precedence _).1 (by decide),
    (c1_variant_precedence _).2.1 (by decide) (by decide),
    (c1_variant_precedence _).2.2.1 (by decide) (by decide)⟩



/-- Claim C5: for the gateway (Azure) variant (truthy `azureApiKey`, endpoint
present), construction normalizes the endpoint by trimming whitespace and
stripping one trailing slash (`normalizeEndpoint`), and requires the https
scheme case-insensitively: a secure endpoint is stored normalized, an
insecure endpoint always throws at construction time. -/
theorem c5_endpoint_validation (opts : Options) (e : String)
    (hak : truthy opts.azureApiKey = true) (he : opts.azureEndpoint = some e) :
    (strStartsWith (strToLower (normalizeEndpoint e)) "https://" = true →
      ∃ client, construct opts = Except.ok client ∧
        client.options.azureEndpoint = some (normalizeEndpoint e) ∧
        client.clientType = ClientType.AzureOpenAI) ∧
    (strStartsWith (strToLower (normalizeEndpoint e)) "https://" = false →
      construct opts = Except.error (invalidEndpointMessage (normalizeEndpoint e))) := by
  constructor
  · intro hs
    simp only [construct, hak, if_true]
    rw [he]
    simp only [hs, if_true]
    exact ⟨_, rfl, rfl, rfl⟩
  · intro hs
    simp only [construct, hak, if_true]
    rw [he]
    simp [hs]

/-- Claim C5 witness: the secure gateway endpoint ` https://x/ ` (whitespace
and trailing slash) is stored as the clean URL `https://x`, and the insecure
endpoint `http://x` makes construction throw. -/
theorem c5_endpoint_validation_witness :
    construct azureSlashOptions = Except.ok azureNormalizedClient ∧
    construct azureInsecureOptions = Except.error (invalidEndpointMessage "http://x") :=
  ⟨by decide,
    ((c5_endpoint_validation azureInsecureOptions "http://x" (by decide) rfl).2
      (by decide)).trans (by decide)⟩



/-- Claim C2: for every retry delay schedule and every transport whose every
attempt answers HTTP 429, one `createEmbeddings` call performs exactly
`schedule.length + 1` physical attempts, waiting the delays of the schedule
in schedule order, and returns the `rate_limited` result rather than
throwing. -/
theorem c2_rate_limit_exhaustion (c : OpenAIEmbeddings) (tr : Transport)
    (inputs : List String) (schedule : List Nat)
    (hrp : c.options.retryPolicy = some schedule)
    (h429 : ∀ n req, (tr n req).status = 429) :
    (∃ r c2, createEmbeddingRequest tr c inputs =
        (HttpOutcome.final r schedule (schedule.length + 1), c2) ∧ r.status = 429) ∧
    (createEmbeddings c tr inputs).1 = CallResult.returned
      (EmbeddingsResponse.rate_limited "The embeddings API returned a rate limit error.") := by
  obtain ⟨r, c2, heq, hr⟩ :=
    postAux_429 tr (createEmbeddingRequestUrl c) (createEmbeddingRequestBody c inputs) h429 schedule c 0
  have hcr : createEmbeddingRequest tr c inputs =
      (HttpOutcome.final r schedule (schedule.length + 1), c2) := by
    unfold createEmbeddingRequest post
    rw [hrp]
    simpa using heq
  refine ⟨⟨r, c2, hcr, hr⟩, ?_⟩
  unfold createEmbeddings
  rw [hcr]
  have h300 : ¬ (r.status < 300) := by omega
  simp [hr, h300]

/-- Claim C2 witness: the default two-entry schedule with an all-429
transport gives three physical attempts, the delays 2000 then 5000, and the
`rate_limited` result. -/
theorem c2_rate_limit_exhaustion_witness :
    createEmbeddingRequest allRate429 sampleClient ["a"] =
      (HttpOutcome.final { status := 429, statusText := "Too Many Requests", data := [] }
        [2000, 5000] 3, sampleClient) ∧
    (createEmbeddings sampleClient allRate429 ["a"]).1 = CallResult.returned
      (EmbeddingsResponse.rate_limited "The embeddings API returned a rate limit error.") :=
  ⟨by decide,
    (c2_rate_limit_exhaustion sampleClient allRate429 ["a"] [2000, 5000] rfl (fun _ _ => rfl)).2⟩



/-- Claim C3: when the final response has a status below 300,
`createEmbeddings` returns `success` with the response items stably sorted
ascending by `index` and projected to the `embedding` field only (the sorted
list is a permutation of the received items and is sorted by index). -/
theorem c3_success_sorted (c : OpenAIEmbeddings) (tr : Transport) (inputs : List String)
    (r : AxiosResponse) (htr : ∀ n req, tr n req = r) (hs : r.status < 300) :
    (createEmbeddings c tr inputs).1 = CallResult.returned
      (EmbeddingsResponse.success ((sortByIndex r.data).map RawItem.embedding)) ∧
    (sortByIndex r.data).Perm r.data ∧
    List.Sorted idxLe (sortByIndex r.data) := by
  have hv : validateStatus r.status = true := by
    unfold validateStatus
    have h4 : r.status < 400 := by omega
    simp [h4]
  have h429 : ¬ r.status = 429 := by omega
  have hcr : createEmbeddingRequest tr c inputs = (HttpOutcome.final r [] 1, stepState c) := by
    unfold createEmbeddingRequest post
    exact postAux_no_retry tr _ _ _ c 0 r htr hv h429
  refine ⟨?_, List.perm_insertionSort idxLe r.data, List.sorted_insertionSort idxLe r.data⟩
  unfold createEmbeddings
  rw [hcr]
  simp [hs]

/-- Claim C3 witness: the concrete scenario of the claim, inputs `a`, `b`
and items received in the order index 1, index 0: the result is `success`
with the vectors back in input order, index stripped. -/
theorem c3_success_sorted_witness :
    (createEmbeddings sampleClient reorderedSuccess ["a", "b"]).1 = CallResult.returned
      (EmbeddingsResponse.success [[1, 0], [0, 1]]) ∧
    (sortByIndex [{ index := 1, embedding := [0, 1] }, { index := 0, embedding := [1, 0] }]).Perm
      [{ index := 1, embedding := [0, 1] }, { index := 0, embedding := [1, 0] }] := by
  have h := c3_success_sorted sampleClient reorderedSuccess ["a", "b"]
    { status := 200, statusText := "OK",
      data := [{ index := 1, embedding := [0, 1] }, { index := 0, embedding := [1, 0] }] }
    (fun _ _ => rfl) (by decide)
  exact ⟨h.1.trans (by decide), h.2.1⟩

/-- Claim C4 counterexample: with a single 500 response the call does not
return an `error` result; the axios `validateStatus` of line 200 (status
below 400 or equal to 429) rejects the response, so the await throws and the
exception propagates out of `createEmbeddings`. -/
theorem c4_counterexample :
    (createEmbeddings sampleClient singleServerError ["a"]).1 =
      CallResult.thrown "Request failed with status code 500" ∧
    (createEmbeddings sampleClient singleServerError ["a"]).1 ≠ CallResult.returned
      (EmbeddingsResponse.error
        "The embeddings API returned an error status of 500: Internal Server Error") := by
  exact ⟨by decide, by decide⟩

/-- Claim C4 (amended): a final response with a status in [300, 400) — the
only statuses of 300 and above, other than 429, that the transport resolves
rather than throws — makes `createEmbeddings` return, with exactly one
physical attempt and no delay, an `error` result whose message embeds the
status code and the status text; statuses of 400 and above other than 429
are rejected by `validateStatus` and surface as a thrown transport error
instead. -/
theorem c4_error_status (c : OpenAIEmbeddings) (tr : Transport) (inputs : List String)
    (r : AxiosResponse) (htr : ∀ n req, tr n req = r)
    (h3 : 300 ≤ r.status) (h4 : r.status < 400) :
    createEmbeddingRequest tr c inputs = (HttpOutcome.final r [] 1, stepState c) ∧
    (createEmbeddings c tr inputs).1 = CallResult.returned (EmbeddingsResponse.error
      ("The embeddings API returned an error status of " ++ toString r.status ++ ": " ++ r.statusText)) := by
  have hv : validateStatus r.status = true := by
    unfold validateStatus
    simp [h4]
  have h429 : ¬ r.status = 429 := by omega
  have hcr : createEmbeddingRequest tr c inputs = (HttpOutcome.final r [] 1, stepState c) := by
    unfold createEmbeddingRequest post
    exact postAux_no_retry tr _ _ _ c 0 r htr hv h429
  refine ⟨hcr, ?_⟩
  unfold createEmbeddings
  rw [hcr]
  have h300 : ¬ (r.status < 300) := by omega
  simp [h300, h429]

/-- Claim C4 amended witness: a single 399 response gives one attempt, no
delay, and the `error` result embedding the status code and text. -/
theorem c4_error_status_witness :
    createEmbeddingRequest singleStatus399 sampleClient ["a"] =
      (HttpOutcome.final { status := 399, statusText := "Out Of Band", data := [] } [] 1,
        stepState sampleClient) ∧
    (createEmbeddings sampleClient singleStatus399 ["a"]).1 = CallResult.returned
      (EmbeddingsResponse.error "The embeddings API returned an error status of 399: Out Of Band") := by
  have h := c4_error_status sampleClient singleStatus399 ["a"]
    { status := 399, statusText := "Out Of Band", data := [] }
    (fun _ _ => rfl) (by decide) (by decide)
  exact ⟨h.1, h.2.trans (by decide)⟩

/-- Claim C8 evaluation at the failing input: two inputs but a single
returned item produce a `success` with one vector — a silently truncated
output — and not the `error` result the claim requires; the source performs
no item-count integrity check. -/
theorem c8_silent_truncation :
    (createEmbeddings sampleClient truncatedSuccess ["a", "b"]).1 =
      CallResult.returned (EmbeddingsResponse.success [[1]]) ∧
    [[(1 : Int)]].length = 1 ∧ ["a", "b"].length = 2 := by
  exact ⟨by decide, rfl, rfl⟩



/-- Claim C6 evaluation at the failing input: for a successfully constructed
gateway (Azure) client — endpoint `https://gw.example`, deployment
`model-d` — the request URL is the hosted-provider default
`https://api.openai.com/v1/embeddings` and the body model field is absent
(`undefined`), because `createEmbeddingRequest` (lines 254-261 of the
source) never branches on the client type: it reads only `options.endpoint`
and `options.model`, so the validated `azureEndpoint`, `azureDeployment` and
the defaulted `azureApiVersion` are never used to build a request. -/
theorem c6_gateway_url_ignored :
    gatewayOptions.azureEndpoint = some "https://gw.example" ∧
    gatewayOptions.azureDeployment = some "model-d" ∧
    Except.map
      (fun client => (createEmbeddingRequestUrl client,
        (createEmbeddingRequestBody client ["a"]).model, client.clientType))
      (construct gatewayOptions) =
      Except.ok ("https://api.openai.com/v1/embeddings", none, ClientType.AzureOpenAI) := by
  exact ⟨rfl, rfl, by decide⟩

/-- Claim C7 evaluation at the failing input: the headers that `post` sends
for the constructed gateway client (no caller `requestConfig`, so the
attempt headers are `applyHeaders client (effHeaders client)`) carry
`Authorization: Bearer undefined` — built from the absent `options.apiKey` —
and no gateway `api-key` credential header at all: lines 288-292 of the
source apply the same bearer scheme to every variant. -/
theorem c7_bearer_always :
    Except.map
      (fun client =>
        (hget (applyHeaders client (effHeaders client)) "Authorization",
          hget (applyHeaders client (effHeaders client)) "api-key"))
      (construct gatewayOptions) =
      Except.ok (some "Bearer undefined", none) := by
  decide


theorem createEmbeddingRequest_snd (tr : Transport) (c : OpenAIEmbeddings) (inputs : List String) :
    (createEmbeddingRequest tr c inputs).2 = stepState c := by
  unfold createEmbeddingRequest post
  exact postAux_snd tr _ _ _ c 0

theorem createEmbeddings_snd (tr : Transport) (c : OpenAIEmbeddings) (inputs : List String) :
    (createEmbeddings c tr inputs).2 = stepState c := by
  unfold createEmbeddings
  rcases hcr : createEmbeddingRequest tr c inputs with ⟨o, c2⟩
  have h2 : c2 = stepState c := by
    have hh := createEmbeddingRequest_snd tr c inputs
    rw [hcr] at hh
    exact hh
  cases o with
  | thrown m => exact h2
  | final r ds a =>
    dsimp only
    split
    · exact h2
    · split
      · exact h2
      · exact h2

theorem createEmbeddingRequest_stepState (tr : Transport) (c : OpenAIEmbeddings)
    (inputs : List String) :
    createEmbeddingRequest tr (stepState c) inputs = createEmbeddingRequest tr c inputs := by
  unfold createEmbeddingRequest post createEmbeddingRequestUrl createEmbeddingRequestBody
  rw [stepState_endpoint, stepState_model, stepState_retryPolicy]
  exact postAux_stepState tr _ _ _ c 0

/-- Claim C9: `createEmbeddings` is deterministic — with the same inputs and
the same deterministic transport, a second call (run on the client state the
first call returned) yields exactly the same result value as the first
call. -/
theorem c9_deterministic (c : OpenAIEmbeddings) (tr : Transport) (inputs : List String) :
    (createEmbeddings ((createEmbeddings c tr inputs).2) tr inputs).1 =
      (createEmbeddings c tr inputs).1 := by
  rw [createEmbeddings_snd]
  show (createEmbeddings (stepState c) tr inputs).1 = (createEmbeddings c tr inputs).1
  unfold createEmbeddings
  rw [createEmbeddingRequest_stepState]



/-- Claim C10: when the construction options carry a `requestConfig` with a
`headers` object, a `createEmbeddings` call mutates that shared headers
object in place — it becomes `applyHeaders` of itself, which fills in
`Content-Type` and `User-Agent` when absent and writes `Authorization`
unconditionally — while every other part of the client options (and the
rest of `requestConfig`) is left unchanged, as the single-field record
update in the conclusion states. -/
theorem c10_header_mutation (c : OpenAIEmbeddings) (tr : Transport) (inputs : List String)
    (rc : RequestConfig) (h : HeadersObj)
    (hrc : c.options.requestConfig = some rc) (hh : rc.headers = some h) :
    (createEmbeddings c tr inputs).2 =
      { c with options := { c.options with
          requestConfig := some { rc with headers := some (applyHeaders c h) } } } ∧
    (hget h "Content-Type" = none →
      hget (applyHeaders c h) "Content-Type" = some "application/json") ∧
    (hget h "User-Agent" = none →
      hget (applyHeaders c h) "User-Agent" = some "AlphaWave") ∧
    hget (applyHeaders c h) "Authorization" = some ("Bearer " ++ jsString c.options.apiKey) := by
  refine ⟨?_, ?_, ?_, ?_⟩
  · rw [createEmbeddings_snd]
    unfold stepState
    rw [hrc]
    dsimp only
    rw [hh]
  · intro hct
    unfold applyHeaders applyHeadersKV
    rw [setAuthHeaders_ct]
    unfold setDefaultHeaders
    have hf : truthy (hget h "Content-Type") = false := by rw [hct]; rfl
    simp only [hf, if_false, Bool.false_eq_true]
    by_cases hua : truthy (hget (hset h "Content-Type" "application/json") "User-Agent")
    · simp only [hua, if_true]
      exact hget_hset_self _ _ _
    · simp only [hua, if_false, Bool.false_eq_true]
      rw [hget_hset_ne _ _ _ _ (by decide)]
      exact hget_hset_self _ _ _
  · intro hua
    unfold applyHeaders applyHeadersKV
    rw [setAuthHeaders_ua]
    unfold setDefaultHeaders
    by_cases hct : truthy (hget h "Content-Type")
    · simp only [hct, if_true]
      have hf : truthy (hget h "User-Agent") = false := by rw [hua]; rfl
      simp only [hf, if_false, Bool.false_eq_true]
      exact hget_hset_self _ _ _
    · simp only [hct, if_false, Bool.false_eq_true]
      have hne : hget (hset h "Content-Type" "application/json") "User-Agent" = hget h "User-Agent" :=
        hget_hset_ne _ _ _ _ (by decide)
      have hf : truthy (hget (hset h "Content-Type" "application/json") "User-Agent") = false := by
        rw [hne, hua]
        rfl
      simp only [hf, if_false, Bool.false_eq_true]
      exact hget_hset_self _ _ _
  · unfold applyHeaders applyHeadersKV
    exact auth_setAuthHeaders _ _ _

/-- Claim C10 witness: a caller-supplied shared headers object containing
only `X-Custom` gains `Content-Type`, `User-Agent` and `Authorization` in
place, and the rest of the client options is untouched. -/
theorem c10_header_mutation_witness :
    (createEmbeddings sharedHeadersClient okEmpty ["a"]).2 =
      { sharedHeadersClient with options := { sharedHeadersClient.options with
          requestConfig := some
            { headers := some (applyHeaders sharedHeadersClient [("X-Custom", "v")]),
              timeout := some 7 } } } ∧
    hget (applyHeaders sharedHeadersClient [("X-Custom", "v")]) "Content-Type" = some "application/json" ∧
    hget (applyHeaders sharedHeadersClient [("X-Custom", "v")]) "User-Agent" = some "AlphaWave" ∧
    hget (applyHeaders sharedHeadersClient [("X-Custom", "v")]) "Authorization" = some "Bearer sk-test" := by
  have h := c10_header_mutation sharedHeadersClient okEmpty ["a"]
    { headers := some [("X-Custom", "v")], timeout := some 7 } [("X-Custom", "v")] rfl rfl
  exact ⟨h.1, h.2.1 (by decide), h.2.2.1 (by decide), h.2.2.2.trans (by decide)⟩

end Blueband
